import Mathlib

/-!
Verification of the BirdView terminal client (Python) against its
natural-language specification.  The Python source is shallowly embedded:
pure functions become Lean functions, dictionary/JSON access becomes
association-list lookup with explicit fallbacks, Python truthiness is
modelled explicitly, and the file-backed stores become explicit state
passing over lists of records.
-/

set_option maxRecDepth 8192

namespace BirdView

/-- Python substring test: the string `a` occurs contiguously in `b`
(Python operator `a in b` on strings). -/
def pyIn (a b : String) : Bool :=
  b.toList.tails.any (fun t => a.toList.isPrefixOf t)

/-- Last binding wins, mirroring repeated Python dict assignment
`d[k] = v` while iterating a list in order. -/
def findLast {α : Type} (p : α → Bool) (l : List α) : Option α :=
  l.foldl (fun acc x => if p x then some x else acc) none

/-! ## Bookmark store (src/birdview/config.py)

The store is the parsed contents of bookmarks.json: a list of bookmark
records.  File IO (ensure_app_dir, json load/dump) is modelled as explicit
state passing: each operation maps the current list to the new list that
the code would write back. -/

structure Bookmark where
  tweet_id : String
  author : String
  text : String
  url : String
  saved_at : String
  deriving DecidableEq, Repr

/-- Python string slicing `s[:n]`: the first `n` characters (code points). -/
def pySlice (s : String) (n : Nat) : String :=
  String.mk (s.toList.take n)

/-- `save_bookmark` from config.py: no-op when the id is already present,
else append a record with the text sliced to its first 280 characters and
the current timestamp (passed in as `now`). -/
def save_bookmark (now : String) (tweet_id author text url : String)
    (bookmarks : List Bookmark) : List Bookmark :=
  if bookmarks.any (fun b => b.tweet_id == tweet_id) then
    bookmarks
  else
    bookmarks ++ [{ tweet_id := tweet_id, author := author,
                    text := pySlice text 280, url := url, saved_at := now }]

/-- `remove_bookmark` from config.py: filter out records with the given
id; if nothing changed, return False and do not rewrite the file.  The
result is (return value, store contents after the call). -/
def remove_bookmark (tweet_id : String) (bookmarks : List Bookmark) :
    Bool × List Bookmark :=
  let nw := bookmarks.filter (fun b => !(b.tweet_id == tweet_id))
  if nw.length == bookmarks.length then
    (false, bookmarks)
  else
    (true, nw)

/-! ## Credential store (src/birdview/config.py) -/

def REQUIRED_KEYS : List String :=
  ["consumer_key", "consumer_secret", "bearer_token",
   "access_token", "access_token_secret"]

structure TwitterCreds where
  consumer_key : String
  consumer_secret : String
  bearer_token : String
  access_token : String
  access_token_secret : String
  deriving DecidableEq, Repr

/-- Python truthiness of `data.get(k)` for a JSON string value: falsy when
the key is absent or maps to the empty string. -/
def blankKey (data : String → Option String) (k : String) : Bool :=
  match data k with
  | none => true
  | some v => v == ""

/-- The list comprehension `[k for k in REQUIRED_KEYS if not data.get(k)]`. -/
def missingKeys (data : String → Option String) : List String :=
  REQUIRED_KEYS.filter (fun k => blankKey data k)

/-- Python `", ".join l`. -/
def joinComma : List String → String
  | [] => ""
  | [x] => x
  | x :: y :: rest => x ++ ", " ++ joinComma (y :: rest)

/-- `load_creds` from config.py, after the JSON document has been parsed
into a key lookup.  A missing/blank required key raises SystemExit with a
message naming all missing keys; otherwise the five values are returned. -/
def load_creds (data : String → Option String) : Except String TwitterCreds :=
  let missing := missingKeys data
  if missing.isEmpty then
    .ok { consumer_key := (data "consumer_key").getD ""
        , consumer_secret := (data "consumer_secret").getD ""
        , bearer_token := (data "bearer_token").getD ""
        , access_token := (data "access_token").getD ""
        , access_token_secret := (data "access_token_secret").getD "" }
  else
    .error ("Missing keys in credentials.json: " ++ joinComma missing ++
            "\nRequired: " ++ joinComma REQUIRED_KEYS)

/-! ## Response normalizer (src/birdview/client.py)

The tweepy response objects are embedded as explicit structures with an
`Option` for every attribute the code accesses defensively.  Python dicts
(`public_metrics`, `entities`, the `users`/`ref_tweets` tables) are
association structures where repeated insertion means last-binding-wins.
`html.unescape` is an external library function and is passed in as an
abstract string transformer `unesc`. -/

structure RawUser where
  id : Nat
  username : String
  name : String
  deriving DecidableEq, Repr

structure RawRef where
  type : String
  id : Nat
  deriving DecidableEq, Repr

structure RawUrl where
  expanded_url : Option String
  url : Option String
  deriving DecidableEq, Repr

structure RawTweet where
  id : Nat
  text : String
  author_id : Option Nat
  created_at : Option Nat
  public_metrics : Option (List (String × Nat))
  referenced_tweets : Option (List RawRef)
  entities : Option (List (String × List RawUrl))
  conversation_id : Option Nat
  note_tweet : Option String
  deriving DecidableEq, Repr

/-- `response.data`: absent, a single tweet (e.g. get_tweet), or a list. -/
inductive RawData where
  | nodata
  | single (t : RawTweet)
  | many (ts : List RawTweet)
  deriving DecidableEq, Repr

/-- `response.includes`: optional mapping with optional "users"/"tweets". -/
structure Includes where
  users : Option (List RawUser)
  tweets : Option (List RawTweet)
  deriving DecidableEq, Repr

structure RawResponse where
  data : RawData
  includes : Option Includes
  deriving DecidableEq, Repr

/-- The normalized Tweet dataclass.  It is an inductive (not a structure)
because `quoted_tweet` nests the type in an `Option`. -/
inductive Tweet where
  | mk (id text author_handle author_name : String)
       (created_at : Option Nat)
       (likes retweets replies quotes : Nat)
       (is_retweet is_reply is_quote : Bool)
       (retweeted_by : Option String)
       (quoted_tweet : Option Tweet)
       (conversation_id : Option String)
       (urls : List String)

def Tweet.id : Tweet → String
  | .mk i _ _ _ _ _ _ _ _ _ _ _ _ _ _ _ => i

def Tweet.text : Tweet → String
  | .mk _ x _ _ _ _ _ _ _ _ _ _ _ _ _ _ => x

def Tweet.author_handle : Tweet → String
  | .mk _ _ x _ _ _ _ _ _ _ _ _ _ _ _ _ => x

def Tweet.author_name : Tweet → String
  | .mk _ _ _ x _ _ _ _ _ _ _ _ _ _ _ _ => x

def Tweet.created_at : Tweet → Option Nat
  | .mk _ _ _ _ x _ _ _ _ _ _ _ _ _ _ _ => x

def Tweet.likes : Tweet → Nat
  | .mk _ _ _ _ _ x _ _ _ _ _ _ _ _ _ _ => x

def Tweet.retweets : Tweet → Nat
  | .mk _ _ _ _ _ _ x _ _ _ _ _ _ _ _ _ => x

def Tweet.replies : Tweet → Nat
  | .mk _ _ _ _ _ _ _ x _ _ _ _ _ _ _ _ => x

def Tweet.quotes : Tweet → Nat
  | .mk _ _ _ _ _ _ _ _ x _ _ _ _ _ _ _ => x

def Tweet.is_retweet : Tweet → Bool
  | .mk _ _ _ _ _ _ _ _ _ x _ _ _ _ _ _ => x

def Tweet.is_reply : Tweet → Bool
  | .mk _ _ _ _ _ _ _ _ _ _ x _ _ _ _ _ => x

def Tweet.is_quote : Tweet → Bool
  | .mk _ _ _ _ _ _ _ _ _ _ _ x _ _ _ _ => x

def Tweet.retweeted_by : Tweet → Option String
  | .mk _ _ _ _ _ _ _ _ _ _ _ _ x _ _ _ => x

def Tweet.quoted_tweet : Tweet → Option Tweet
  | .mk _ _ _ _ _ _ _ _ _ _ _ _ _ x _ _ => x

def Tweet.conversation_id : Tweet → Option String
  | .mk _ _ _ _ _ _ _ _ _ _ _ _ _ _ x _ => x

def Tweet.urls : Tweet → List String
  | .mk _ _ _ _ _ _ _ _ _ _ _ _ _ _ _ x => x

/-- Dict lookup `users.get(author_id)` where the dict was filled by
iterating the includes list in order (`users[u.id] = u`): the last entry
with a given id wins.  A `None` key looks up nothing. -/
def usersGet (us : List RawUser) : Option Nat → Option RawUser
  | none => none
  | some i => findLast (fun u => u.id == i) us

/-- Dict lookup `ref_tweets.get(rid)` built the same way from
`includes["tweets"]`. -/
def refGet (ts : List RawTweet) (i : Nat) : Option RawTweet :=
  findLast (fun t => t.id == i) ts

/-- Python `d.get(k, default)` on a string-keyed dict of counters. -/
def dictGetNat (d : List (String × Nat)) (k : String) (dflt : Nat) : Nat :=
  match findLast (fun kv => kv.1 == k) d with
  | some kv => kv.2
  | none => dflt

/-- Python `a or b` where `a` is an optional dict: falsy when `None` or
empty. -/
def pyOrDict (a : Option (List (String × Nat))) (b : List (String × Nat)) :
    List (String × Nat) :=
  match a with
  | none => b
  | some l => if l.isEmpty then b else l

/-- Python `a or b` on optional timestamps (`datetime` is always truthy). -/
def pyOrOpt (a b : Option Nat) : Option Nat :=
  match a with
  | none => b
  | some x => some x

/-- `_full_text`: prefer the note_tweet text when present and non-empty,
else the plain text; always apply `html.unescape` (abstract `unesc`). -/
def fullText (unesc : String → String) (t : RawTweet) : String :=
  match t.note_tweet with
  | some s => if s == "" then unesc t.text else unesc s
  | none => unesc t.text

/-- The wrapper author's resolved handle: `author.username if author else
"unknown"`. -/
def handleOf (us : List RawUser) (t : RawTweet) : String :=
  match usersGet us t.author_id with
  | some a => a.username
  | none => "unknown"

/-- The wrapper author's resolved display name. -/
def nameOf (us : List RawUser) (t : RawTweet) : String :=
  match usersGet us t.author_id with
  | some a => a.name
  | none => "Unknown"

/-- URL entity extraction loop: `expanded = u.get("expanded_url",
u.get("url", ""))`, skipping entries containing "twitter.com" or
"x.com", appending the rest in order. -/
def urlLoop (entries : List RawUrl) (acc : List String) : List String :=
  entries.foldl
    (fun acc u =>
      let expanded := u.expanded_url.getD (u.url.getD "")
      if pyIn "twitter.com" expanded || pyIn "x.com" expanded then acc
      else acc ++ [expanded])
    acc

/-- `if t.entities and "urls" in t.entities: for u in t.entities["urls"]`.
An absent or empty entities dict and a missing "urls" key both yield no
URLs. -/
def extractUrls (t : RawTweet) : List String :=
  match t.entities with
  | none => []
  | some ents =>
    match findLast (fun kv => kv.1 == "urls") ents with
    | some kv => urlLoop kv.2 []
    | none => []

/-- A raw post with every optional attribute absent (a concrete test
fixture used when instantiating the theorems below). -/
def bareRaw (i : Nat) (s : String) : RawTweet :=
  { id := i, text := s, author_id := none, created_at := none,
    public_metrics := none, referenced_tweets := none, entities := none,
    conversation_id := none, note_tweet := none }

/-- Specification-side description of URL extraction, from the claim's
words: the expanded form of each URL entity (falling back to its short
form when absent), in order, dropping those that contain one of the
platform's self-referencing domains. -/
def specUrls (entries : List RawUrl) : List String :=
  (entries.map (fun u => u.expanded_url.getD (u.url.getD ""))).filter
    (fun s => !(pyIn "twitter.com" s) && !(pyIn "x.com" s))

/-- The quoted-tweet branch of `_parse_tweets`: first reference of type
"quoted" (`next(...)` takes the first), looked up in the side table;
the nested Tweet carries the quoted post's own text/metrics/timestamp
and Python dataclass defaults for every other field. -/
def buildQuoted (unesc : String → String) (us : List RawUser)
    (rts : List RawTweet) (refs : List RawRef) : Option Tweet :=
  match refs.find? (fun r => r.type == "quoted") with
  | none => none
  | some qtRef =>
    match refGet rts qtRef.id with
    | none => none
    | some qt =>
      let m := pyOrDict qt.public_metrics []
      some (Tweet.mk (toString qt.id) (fullText unesc qt)
        (match usersGet us qt.author_id with
         | some a => a.username
         | none => "unknown")
        (match usersGet us qt.author_id with
         | some a => a.name
         | none => "Unknown")
        qt.created_at
        (dictGetNat m "like_count" 0)
        (dictGetNat m "retweet_count" 0)
        (dictGetNat m "reply_count" 0)
        0 false false false none none none [])

/-- The `actual_*` variables of the `_parse_tweets` loop body: text,
author handle/name, metrics, id and timestamp, initialized from the
wrapper post and overridden by the original post when a resolvable
retweet reference exists. -/
structure Resolved where
  text : String
  handle : String
  name : String
  metrics : List (String × Nat)
  idStr : String
  created : Option Nat

/-- Lines 142-163 of client.py: the retweet-override block.  When the
post carries a `retweeted` reference whose target is in the side table,
the original post's fields replace the wrapper's, the author being
re-resolved in `users` (keeping the wrapper's resolved author on a
miss), the metrics and timestamp falling back to the wrapper's. -/
def resolveRT (unesc : String → String) (us : List RawUser)
    (rts : List RawTweet) (t : RawTweet) : Resolved :=
  let handle := handleOf us t
  let name := nameOf us t
  let metrics := pyOrDict t.public_metrics []
  let refs := t.referenced_tweets.getD []
  let wrapper : Resolved :=
    { text := fullText unesc t, handle := handle, name := name,
      metrics := metrics, idStr := toString t.id, created := t.created_at }
  if refs.any (fun r => r.type == "retweeted") then
    match refs.find? (fun r => r.type == "retweeted") with
    | some rtRef =>
      match refGet rts rtRef.id with
      | some orig =>
        { text := fullText unesc orig
          handle := match usersGet us orig.author_id with
                    | some oa => oa.username
                    | none => handle
          name := match usersGet us orig.author_id with
                  | some oa => oa.name
                  | none => name
          metrics := pyOrDict orig.public_metrics metrics
          idStr := toString orig.id
          created := pyOrOpt orig.created_at t.created_at }
      | none => wrapper
    | none => wrapper
  else wrapper

/-- The loop body of `_parse_tweets` for one primary raw post. -/
def parseOne (unesc : String → String) (us : List RawUser)
    (rts : List RawTweet) (t : RawTweet) : Tweet :=
  let handle := handleOf us t
  let refs := t.referenced_tweets.getD []
  let is_rt := refs.any (fun r => r.type == "retweeted")
  let is_reply := refs.any (fun r => r.type == "replied_to")
  let is_quote := refs.any (fun r => r.type == "quoted")
  let r := resolveRT unesc us rts t
  Tweet.mk r.idStr r.text r.handle r.name r.created
    (dictGetNat r.metrics "like_count" 0)
    (dictGetNat r.metrics "retweet_count" 0)
    (dictGetNat r.metrics "reply_count" 0)
    (dictGetNat r.metrics "quote_count" 0)
    is_rt is_reply is_quote
    (if is_rt then some handle else none)
    (if is_quote then buildQuoted unesc us rts refs else none)
    (match t.conversation_id with
     | some c => if c == 0 then none else some (toString c)
     | none => none)
    (extractUrls t)

/-- Python falsiness of `response.data`: `None` or the empty list. -/
def dataFalsy : RawData → Bool
  | .nodata => true
  | .single _ => false
  | .many ts => ts.isEmpty

/-- `data` normalized to a list (`if not isinstance(data, list): data =
[data]`). -/
def dataToList : RawData → List RawTweet
  | .nodata => []
  | .single t => [t]
  | .many ts => ts

/-- The users side table of a response (`includes.get("users", [])`). -/
def usersOf (resp : RawResponse) : List RawUser :=
  match resp.includes with
  | none => []
  | some inc => inc.users.getD []

/-- The referenced-tweets side table (`includes.get("tweets", [])`). -/
def refsOf (resp : RawResponse) : List RawTweet :=
  match resp.includes with
  | none => []
  | some inc => inc.tweets.getD []

/-- `_parse_tweets`: empty/absent data short-circuits to `[]`; otherwise
one normalized Tweet per primary raw post, in order. -/
def parse_tweets (unesc : String → String) (resp : RawResponse) :
    List Tweet :=
  if dataFalsy resp.data then []
  else (dataToList resp.data).map (parseOne unesc (usersOf resp) (refsOf resp))

/-! ## Interactive browser (src/birdview/interactive.py)

One iteration of the `browse_tweets` command loop is embedded as a pure
step function from (tweet list, page size, current page, the command
string after `.strip().lower()`, and the reply the user would give to the
"Tweet #" prompt) to the next page plus the side effect the iteration
performs.  Commands are analysed as character lists. -/

inductive Effect where
  | quit
  | redraw
  | notice (msg : String)
  | bookmarkOf (t : Tweet)
  | copyOf (t : Tweet)
  | openOf (t : Tweet)
  | threadOf (t : Tweet)
  | detailOf (t : Tweet)

def natOfDigits (ds : List Char) : Nat :=
  ds.foldl (fun acc c => 10 * acc + (c.toNat - 48)) 0

/-- Python `int(s)` on an already-stripped string: an optional sign
followed by at least one decimal digit, else ValueError (`none`).
(Python additionally accepts underscore separators and non-ASCII digits;
the browser only ever deals in ASCII input.) -/
def parsePyInt (s : List Char) : Option Int :=
  match s with
  | [] => none
  | '-' :: ds =>
    if !ds.isEmpty && ds.all Char.isDigit then some (-(natOfDigits ds : Int))
    else none
  | '+' :: ds =>
    if !ds.isEmpty && ds.all Char.isDigit then some (natOfDigits ds : Int)
    else none
  | ds =>
    if ds.all Char.isDigit then some (natOfDigits ds : Int)
    else none

/-- Python `str.strip()` on a character list. -/
def stripChars (cs : List Char) : List Char :=
  ((cs.dropWhile Char.isWhitespace).reverse.dropWhile Char.isWhitespace).reverse

/-- One iteration of the `browse_tweets` while-loop, lines 50-167 of
interactive.py, given the post-processed command `cmd` (the code applies
`.strip().lower()` before dispatch).  `promptReply` is the value the
"Tweet #" prompt would return when a `b/c/o/t` command omits its index
(the prompt defaults to "0" on empty input). -/
def browseStep (tweets : List Tweet) (pageSize page : Nat)
    (cmd : String) (promptReply : String) : Nat × Effect :=
  let totalPages := (tweets.length + pageSize - 1) / pageSize
  let start := page * pageSize
  let cs := cmd.toList
  if cs == [] || cs == ['q'] then (page, .quit)
  else if cs == ['n'] then
    (if page < totalPages - 1 then (page + 1, .redraw)
     else (page, .notice "Already on last page."))
  else if cs == ['p'] then
    (if page > 0 then (page - 1, .redraw)
     else (page, .notice "Already on first page."))
  else
    match cs with
    | [] => (page, .notice ("Unknown command: " ++ cmd))
    | c :: rest =>
      if c == 'b' || c == 'c' || c == 'o' || c == 't' then
        let rest0 := stripChars rest
        let restF := if rest0.isEmpty then promptReply.toList else rest0
        match parsePyInt restF with
        | none => (page, .notice "Invalid tweet number.")
        | some idx =>
          let absIdx : Int := (start : Int) + idx
          if h : absIdx < 0 ∨ (tweets.length : Int) ≤ absIdx then
            (page, .notice ("Tweet #" ++ toString idx ++ " not on this page."))
          else
            let t := tweets.get ⟨absIdx.toNat, by omega⟩
            (page, if c == 'b' then .bookmarkOf t
                   else if c == 'c' then .copyOf t
                   else if c == 'o' then .openOf t
                   else .threadOf t)
      else if !cs.isEmpty && cs.all Char.isDigit then
        let idx := natOfDigits cs
        let absIdx := start + idx
        if h : absIdx < tweets.length then
          (page, .detailOf (tweets.get ⟨absIdx, h⟩))
        else
          (page, .notice ("Tweet #" ++ toString idx ++ " not on this page."))
      else (page, .notice ("Unknown command: " ++ cmd))

/-! ## Count formatter (src/birdview/render.py)

`_format_count` divides a Python int by 1_000 or 1_000_000 producing an
IEEE-754 binary64 float (CPython int/int true division is correctly
rounded, round-to-nearest ties-to-even) and renders it with the `.1f`
format, which prints the decimal one-place value nearest to the float
(CPython formats floats with correctly rounded half-even decimal
conversion; a binary64 value is a dyadic rational and is never an exact
one-decimal tie, so nearest is unambiguous up to the half-even rule).
Both roundings are embedded exactly over `ℚ`. -/

/-- Round the exact quotient `a / b` to the nearest natural number, ties
to even (`b ≠ 0`). -/
def rneDiv (a b : Nat) : Nat :=
  if 2 * (a % b) < b then a / b
  else if b < 2 * (a % b) then a / b + 1
  else if (a / b) % 2 == 0 then a / b else a / b + 1

/-- Structurally recursive floor of log base 2 (`log2fuel n n` below), so
that the kernel can evaluate it; agrees with `Nat.log2`. -/
def log2fuel : Nat → Nat → Nat
  | 0, _ => 0
  | fuel + 1, n => if n < 2 then 0 else log2fuel fuel (n / 2) + 1

def log2floor (n : Nat) : Nat := log2fuel n n

/-- The tenths integer `round(10 * x)` of the binary64 value
`x = fl64(n / d)`, computed exactly in natural arithmetic, for
`1 ≤ d ≤ n`.  With `2 ^ k ≤ n / d < 2 ^ (k+1)` the binary64 significand
is the quotient scaled to `[2 ^ 52, 2 ^ 53]` and rounded to nearest,
ties to even; `.1f` formatting then renders the decimal tenth nearest to
`x` (a binary64 value is dyadic, hence never an exact one-decimal tie). -/
def f64tenths (n d : Nat) : Nat :=
  let k := log2floor (n / d)
  if k ≤ 52 then
    let m := rneDiv (n * 2 ^ (52 - k)) d
    rneDiv (10 * m) (2 ^ (52 - k))
  else
    let m := rneDiv n (d * 2 ^ (k - 52))
    10 * m * 2 ^ (k - 52)

/-- `_format_count` from render.py.  CPython `n / 1_000` on ints is the
correctly rounded binary64 quotient and `f"{x:.1f}"` prints its
correctly rounded one-decimal value; `f64tenths` computes that pipeline
exactly. -/
def format_count (n : Nat) : String :=
  if n ≥ 1000000 then
    let t := f64tenths n 1000000
    toString (t / 10) ++ "." ++ toString (t % 10) ++ "M"
  else if n ≥ 1000 then
    let t := f64tenths n 1000
    toString (t / 10) ++ "." ++ toString (t % 10) ++ "K"
  else toString n

/-- Round a rational to the nearest integer, ties to even (used only in
specification-side statements). -/
def rneQ (q : ℚ) : ℤ :=
  if q - ⌊q⌋ < 1/2 then ⌊q⌋
  else if (1 : ℚ)/2 < q - ⌊q⌋ then ⌊q⌋ + 1
  else if ⌊q⌋ % 2 == 0 then ⌊q⌋ else ⌊q⌋ + 1

/-- Specification-side description of the IEEE-754 binary64
(round-to-nearest, ties-to-even) value of a rational `q ≥ 1`: with
`2 ^ k ≤ q < 2 ^ (k+1)`, the significand is `q` scaled to
`[2 ^ 52, 2 ^ 53]` and rounded to an integer. -/
def fl64 (q : ℚ) : ℚ :=
  let k := Nat.log2 ⌊q⌋.toNat
  if k ≤ 52 then (rneQ (q * 2 ^ (52 - k)) : ℚ) / 2 ^ (52 - k)
  else (rneQ (q / 2 ^ (k - 52)) : ℚ) * 2 ^ (k - 52)

/-- The claim's literal reading of the K range: the exact rational
`n / 1000` rounded half-to-even at one decimal, with no intermediate
floating-point rounding. -/
def specCountK (n : Nat) : String :=
  let d := (rneQ ((10 * n : ℚ) / 1000)).toNat
  toString (d / 10) ++ "." ++ toString (d % 10) ++ "K"

/-! ### Helper lemmas -/

theorem pyIn_iff (a b : String) :
    pyIn a b = true ↔ a.toList <:+: b.toList := by
  unfold pyIn
  rw [List.any_eq_true]
  constructor
  · rintro ⟨t, ht, hp⟩
    rw [List.mem_tails] at ht
    rw [List.isPrefixOf_iff_prefix] at hp
    exact List.infix_iff_prefix_suffix.2 ⟨t, hp, ht⟩
  · intro h
    obtain ⟨t, hp, ht⟩ := List.infix_iff_prefix_suffix.1 h
    exact ⟨t, (List.mem_tails _ _).2 ht, List.isPrefixOf_iff_prefix.2 hp⟩

theorem strToList_append (a b : String) :
    (a ++ b).toList = a.toList ++ b.toList := by
  simp [String.toList]

theorem mem_joinComma_infix (k : String) (l : List String) (h : k ∈ l) :
    k.toList <:+: (joinComma l).toList := by
  induction l with
  | nil => cases h
  | cons x rest ih =>
    cases rest with
    | nil =>
      rcases List.mem_singleton.1 h with rfl
      exact List.infix_rfl
    | cons y t =>
      rcases List.mem_cons.1 h with rfl | hm
      · show k.toList <:+: (k ++ ", " ++ joinComma (y :: t)).toList
        rw [strToList_append, strToList_append]
        exact ⟨[], (", ").toList ++ (joinComma (y :: t)).toList, by simp⟩
      · have hk := ih hm
        show k.toList <:+: (x ++ ", " ++ joinComma (y :: t)).toList
        rw [strToList_append, strToList_append]
        refine hk.trans ?_
        exact ⟨x.toList ++ (", ").toList, [], by simp⟩

theorem countP_not_add_countP {α : Type} (p : α → Bool) (l : List α) :
    l.countP (fun a => !p a) + l.countP p = l.length := by
  induction l with
  | nil => rfl
  | cons x xs ih =>
    cases hx : p x <;> simp [List.countP_cons, hx] <;> omega

theorem length_filter_eq_countP {α : Type} (p : α → Bool) (l : List α) :
    (l.filter p).length = l.countP p := by
  induction l with
  | nil => rfl
  | cons x xs ih =>
    cases hx : p x <;> simp [List.filter_cons, List.countP_cons, hx, ih]

/-! ### Bookmark store claims -/

/-- Claim C7: saving a bookmark whose tweet_id is already present leaves
the store unchanged; saving a new tweet_id appends exactly one record
whose text is the given text truncated to at most 280 characters
(exactly 280 when the input is longer), with the author, url and current
timestamp; saving the same tweet_id twice therefore yields exactly one
stored record for it. -/
theorem claim_C7_save_bookmark (now now2 tid author text url : String)
    (store : List Bookmark) :
    (store.any (fun b => b.tweet_id == tid) = true →
      save_bookmark now tid author text url store = store) ∧
    (store.any (fun b => b.tweet_id == tid) = false →
      save_bookmark now tid author text url store =
        store ++ [{ tweet_id := tid, author := author,
                    text := pySlice text 280, url := url,
                    saved_at := now }] ∧
      (pySlice text 280).length = min 280 text.length ∧
      (text.length ≤ 280 → pySlice text 280 = text) ∧
      (280 ≤ text.length → (pySlice text 280).length = 280) ∧
      save_bookmark now2 tid author text url
          (save_bookmark now tid author text url store) =
        save_bookmark now tid author text url store ∧
      (save_bookmark now2 tid author text url
          (save_bookmark now tid author text url store)).countP
          (fun b => b.tweet_id == tid) = 1) := by
  constructor
  · intro h
    simp only [save_bookmark, h, if_true]
  · intro h
    have happ : save_bookmark now tid author text url store =
        store ++ [{ tweet_id := tid, author := author,
                    text := pySlice text 280, url := url,
                    saved_at := now }] := by
      simp only [save_bookmark, h, Bool.false_eq_true, if_false]
    have hlen : (pySlice text 280).length = min 280 text.length := by
      show (text.toList.take 280).length = min 280 text.length
      rw [List.length_take]
      rfl
    have hrec : (({ tweet_id := tid, author := author,
                    text := pySlice text 280, url := url,
                    saved_at := now } : Bookmark).tweet_id == tid) = true :=
      beq_self_eq_true tid
    have hagain : (save_bookmark now tid author text url store).any
        (fun b => b.tweet_id == tid) = true := by
      rw [happ, List.any_append]
      simp only [List.any_cons, List.any_nil]
      rw [hrec, h]
      rfl
    have hsave2 : save_bookmark now2 tid author text url
        (save_bookmark now tid author text url store) =
        save_bookmark now tid author text url store := by
      generalize hX : save_bookmark now tid author text url store = X at hagain ⊢
      simp only [save_bookmark, hagain, if_true]
    have h0 : store.countP (fun b => b.tweet_id == tid) = 0 := by
      rw [List.countP_eq_zero]
      intro a ha
      exact List.any_eq_false.mp h a ha
    refine ⟨happ, hlen, ?_, (by omega), hsave2, ?_⟩
    · intro hle
      have h2 : List.take 280 text.toList = text.toList :=
        List.take_of_length_le hle
      exact (congrArg String.mk h2).trans rfl
    · rw [hsave2, happ, List.countP_append, h0]
      simp only [List.countP_cons, List.countP_nil]
      rw [hrec]
      rfl

theorem claim_C7_save_bookmark_witness :
    save_bookmark "2024-05-01" "42" "alice"
        (String.mk (List.replicate 300 'x')) "https://example.com/42" [] =
      [] ++ [{ tweet_id := "42", author := "alice",
               text := pySlice (String.mk (List.replicate 300 'x')) 280,
               url := "https://example.com/42",
               saved_at := "2024-05-01" }] ∧
    (pySlice (String.mk (List.replicate 300 'x')) 280).length =
      min 280 (String.mk (List.replicate 300 'x')).length ∧
    ((String.mk (List.replicate 300 'x')).length ≤ 280 →
      pySlice (String.mk (List.replicate 300 'x')) 280 =
        String.mk (List.replicate 300 'x')) ∧
    (280 ≤ (String.mk (List.replicate 300 'x')).length →
      (pySlice (String.mk (List.replicate 300 'x')) 280).length = 280) ∧
    save_bookmark "2024-05-02" "42" "alice"
        (String.mk (List.replicate 300 'x')) "https://example.com/42"
        (save_bookmark "2024-05-01" "42" "alice"
          (String.mk (List.replicate 300 'x')) "https://example.com/42" []) =
      save_bookmark "2024-05-01" "42" "alice"
        (String.mk (List.replicate 300 'x')) "https://example.com/42" [] ∧
    (save_bookmark "2024-05-02" "42" "alice"
        (String.mk (List.replicate 300 'x')) "https://example.com/42"
        (save_bookmark "2024-05-01" "42" "alice"
          (String.mk (List.replicate 300 'x')) "https://example.com/42" [])).countP
      (fun b => b.tweet_id == "42") = 1 :=
  (claim_C7_save_bookmark "2024-05-01" "2024-05-02" "42" "alice"
    (String.mk (List.replicate 300 'x')) "https://example.com/42" []).2 rfl

/-- Claim C8: removing a present id returns true and the resulting store
is the old store with every record of that tweet_id filtered out
(shrinking by one when the id was unique); removing an absent id returns
false and leaves the store unchanged. -/
theorem claim_C8_remove_bookmark (tid : String) (store : List Bookmark) :
    (store.any (fun b => b.tweet_id == tid) = true →
      (remove_bookmark tid store).1 = true ∧
      (remove_bookmark tid store).2 =
        store.filter (fun b => !(b.tweet_id == tid)) ∧
      (store.countP (fun b => b.tweet_id == tid) = 1 →
        (remove_bookmark tid store).2.length + 1 = store.length)) ∧
    (store.any (fun b => b.tweet_id == tid) = false →
      remove_bookmark tid store = (false, store)) := by
  have hflen : (store.filter (fun b => !(b.tweet_id == tid))).length +
      store.countP (fun b => b.tweet_id == tid) = store.length := by
    rw [length_filter_eq_countP]
    exact countP_not_add_countP _ store
  constructor
  · intro h
    have hpos : 0 < store.countP (fun b => b.tweet_id == tid) := by
      rw [List.countP_pos_iff]
      obtain ⟨a, ha, hpa⟩ := List.any_eq_true.mp h
      exact ⟨a, ha, hpa⟩
    have hne : ((store.filter (fun b => !(b.tweet_id == tid))).length ==
        store.length) = false := by
      rw [beq_eq_false_iff_ne]
      omega
    have hrm : remove_bookmark tid store =
        (true, store.filter (fun b => !(b.tweet_id == tid))) := by
      simp only [remove_bookmark, hne, Bool.false_eq_true, if_false]
    refine ⟨by rw [hrm], by rw [hrm], ?_⟩
    intro hone
    rw [hrm]
    simp only
    omega
  · intro h
    have hall : store.filter (fun b => !(b.tweet_id == tid)) = store := by
      rw [List.filter_eq_self]
      intro a ha
      have hfa := List.any_eq_false.mp h a ha
      have hfa2 : (a.tweet_id == tid) = false := by
        cases hb : (a.tweet_id == tid)
        · rfl
        · exact absurd hb hfa
      rw [hfa2]
      rfl
    simp only [remove_bookmark, hall, beq_self_eq_true, if_true]

theorem claim_C8_remove_bookmark_witness :
    ((remove_bookmark "42"
        [{ tweet_id := "42", author := "a", text := "t", url := "u",
           saved_at := "s" },
         { tweet_id := "7", author := "b", text := "t2", url := "u2",
           saved_at := "s2" }]).1 = true ∧
      (remove_bookmark "42"
        [{ tweet_id := "42", author := "a", text := "t", url := "u",
           saved_at := "s" },
         { tweet_id := "7", author := "b", text := "t2", url := "u2",
           saved_at := "s2" }]).2 =
        List.filter (fun b => !(b.tweet_id == "42"))
          [{ tweet_id := "42", author := "a", text := "t", url := "u",
             saved_at := "s" },
           { tweet_id := "7", author := "b", text := "t2", url := "u2",
             saved_at := "s2" }] ∧
      (remove_bookmark "42"
        [{ tweet_id := "42", author := "a", text := "t", url := "u",
           saved_at := "s" },
         { tweet_id := "7", author := "b", text := "t2", url := "u2",
           saved_at := "s2" }]).2.length + 1 = 2) ∧
    remove_bookmark "9"
        [{ tweet_id := "42", author := "a", text := "t", url := "u",
           saved_at := "s" }] =
      (false, [{ tweet_id := "42", author := "a", text := "t", url := "u",
                 saved_at := "s" }]) := by
  constructor
  · have h := (claim_C8_remove_bookmark "42"
      [{ tweet_id := "42", author := "a", text := "t", url := "u",
         saved_at := "s" },
       { tweet_id := "7", author := "b", text := "t2", url := "u2",
         saved_at := "s2" }]).1 (by decide)
    exact ⟨h.1, h.2.1, h.2.2 (by decide)⟩
  · exact (claim_C8_remove_bookmark "9"
      [{ tweet_id := "42", author := "a", text := "t", url := "u",
         saved_at := "s" }]).2 (by decide)

/-! ### Credential store claim -/

/-- Claim C9: when any non-empty subset of the five required keys is
absent (or blank), credential loading fails with an error message that
names every missing key; when all five are present and non-empty it
returns a record holding exactly those five values. -/
theorem claim_C9_load_creds (data : String → Option String) :
    ((∃ k ∈ REQUIRED_KEYS, blankKey data k = true) →
      ∃ msg, load_creds data = .error msg ∧
        ∀ k ∈ REQUIRED_KEYS, blankKey data k = true → pyIn k msg = true) ∧
    (∀ ck cs bt atk ats,
      data "consumer_key" = some ck → ck ≠ "" →
      data "consumer_secret" = some cs → cs ≠ "" →
      data "bearer_token" = some bt → bt ≠ "" →
      data "access_token" = some atk → atk ≠ "" →
      data "access_token_secret" = some ats → ats ≠ "" →
      load_creds data = .ok { consumer_key := ck, consumer_secret := cs,
                              bearer_token := bt, access_token := atk,
                              access_token_secret := ats }) := by
  constructor
  · intro h
    obtain ⟨k0, hk0req, hk0blank⟩ := h
    have hk0mem : k0 ∈ missingKeys data :=
      List.mem_filter.mpr ⟨hk0req, hk0blank⟩
    have hne : (missingKeys data).isEmpty = false := by
      cases hmk : missingKeys data with
      | nil => rw [hmk] at hk0mem; cases hk0mem
      | cons a l => rfl
    refine ⟨"Missing keys in credentials.json: " ++ joinComma (missingKeys data) ++
        ("\nRequired: " ++ joinComma REQUIRED_KEYS), ?_, ?_⟩
    · simp only [load_creds, hne, Bool.false_eq_true, if_false]
      rw [String.append_assoc]
    · intro k hkreq hkblank
      have hkmem : k ∈ missingKeys data :=
        List.mem_filter.mpr ⟨hkreq, hkblank⟩
      have hinf := mem_joinComma_infix k (missingKeys data) hkmem
      rw [pyIn_iff]
      obtain ⟨s, t, hst⟩ := hinf
      refine ⟨("Missing keys in credentials.json: ").toList ++ s,
        t ++ ("\nRequired: " ++ joinComma REQUIRED_KEYS).toList, ?_⟩
      simp only [strToList_append, ← hst, List.append_assoc]
  · intro ck cs bt atk ats h1 h1e h2 h2e h3 h3e h4 h4e h5 h5e
    have b1 : blankKey data "consumer_key" = false := by
      rw [blankKey, h1]
      exact beq_eq_false_iff_ne.mpr h1e
    have b2 : blankKey data "consumer_secret" = false := by
      rw [blankKey, h2]
      exact beq_eq_false_iff_ne.mpr h2e
    have b3 : blankKey data "bearer_token" = false := by
      rw [blankKey, h3]
      exact beq_eq_false_iff_ne.mpr h3e
    have b4 : blankKey data "access_token" = false := by
      rw [blankKey, h4]
      exact beq_eq_false_iff_ne.mpr h4e
    have b5 : blankKey data "access_token_secret" = false := by
      rw [blankKey, h5]
      exact beq_eq_false_iff_ne.mpr h5e
    have hmiss : missingKeys data = [] := by
      simp only [missingKeys, REQUIRED_KEYS, List.filter_cons, b1, b2, b3,
        b4, b5, Bool.false_eq_true, if_false, List.filter_nil]
    simp only [load_creds, hmiss, List.isEmpty_nil, if_true, h1, h2, h3, h4,
      h5, Option.getD_some]

theorem claim_C9_load_creds_witness :
    (∃ msg, load_creds
        (fun k => if k == "consumer_key" then some "ckv"
                  else if k == "bearer_token" then some ""
                  else if k == "access_token" then some "atv"
                  else none) = .error msg ∧
      ∀ k ∈ REQUIRED_KEYS,
        blankKey (fun k => if k == "consumer_key" then some "ckv"
                           else if k == "bearer_token" then some ""
                           else if k == "access_token" then some "atv"
                           else none) k = true → pyIn k msg = true) ∧
    load_creds
        (fun k => if k == "consumer_key" then some "ck"
                  else if k == "consumer_secret" then some "cs"
                  else if k == "bearer_token" then some "bt"
                  else if k == "access_token" then some "at"
                  else if k == "access_token_secret" then some "ats"
                  else none) =
      .ok { consumer_key := "ck", consumer_secret := "cs",
            bearer_token := "bt", access_token := "at",
            access_token_secret := "ats" } := by
  constructor
  · exact (claim_C9_load_creds
      (fun k => if k == "consumer_key" then some "ckv"
                else if k == "bearer_token" then some ""
                else if k == "access_token" then some "atv"
                else none)).1 ⟨"consumer_secret", by decide, by decide⟩
  · exact (claim_C9_load_creds
      (fun k => if k == "consumer_key" then some "ck"
                else if k == "consumer_secret" then some "cs"
                else if k == "bearer_token" then some "bt"
                else if k == "access_token" then some "at"
                else if k == "access_token_secret" then some "ats"
                else none)) |>.2 "ck" "cs" "bt" "at" "ats"
      rfl (by decide) rfl (by decide) rfl (by decide) rfl (by decide)
      rfl (by decide)

/-! ### Normalizer claims -/

/-- Claim C3: the normalizer returns exactly one Post per primary raw
post with input order preserved; empty/absent primary data yields the
empty list, a single non-list object yields exactly one Post, a list of
k posts yields k Posts in order. -/
theorem claim_C3_parse_shape (unesc : String → String) (resp : RawResponse) :
    (resp.data = RawData.nodata → parse_tweets unesc resp = []) ∧
    (∀ t, resp.data = RawData.single t →
      parse_tweets unesc resp =
        [parseOne unesc (usersOf resp) (refsOf resp) t]) ∧
    (∀ ts, resp.data = RawData.many ts →
      parse_tweets unesc resp =
        ts.map (parseOne unesc (usersOf resp) (refsOf resp)) ∧
      (parse_tweets unesc resp).length = ts.length) := by
  refine ⟨?_, ?_, ?_⟩
  · intro h
    simp [parse_tweets, h, dataFalsy]
  · intro t h
    simp [parse_tweets, h, dataFalsy, dataToList]
  · intro ts h
    have hmap : parse_tweets unesc resp =
        ts.map (parseOne unesc (usersOf resp) (refsOf resp)) := by
      cases ts with
      | nil => simp [parse_tweets, h, dataFalsy]
      | cons a l => simp [parse_tweets, h, dataFalsy, dataToList]
    exact ⟨hmap, by rw [hmap, List.length_map]⟩

theorem claim_C3_parse_shape_witness :
    parse_tweets id
        { data := RawData.many [bareRaw 1 "a", bareRaw 2 "b"],
          includes := none } =
      List.map
        (parseOne id
          (usersOf { data := RawData.many [bareRaw 1 "a", bareRaw 2 "b"],
                     includes := none })
          (refsOf { data := RawData.many [bareRaw 1 "a", bareRaw 2 "b"],
                    includes := none }))
        [bareRaw 1 "a", bareRaw 2 "b"] ∧
    (parse_tweets id
        { data := RawData.many [bareRaw 1 "a", bareRaw 2 "b"],
          includes := none }).length = 2 :=
  (claim_C3_parse_shape id
    { data := RawData.many [bareRaw 1 "a", bareRaw 2 "b"],
      includes := none }).2.2 [bareRaw 1 "a", bareRaw 2 "b"] rfl

theorem urlLoop_cons (u : RawUrl) (rest : List RawUrl) (acc : List String) :
    urlLoop (u :: rest) acc =
      urlLoop rest
        (if pyIn "twitter.com" (u.expanded_url.getD (u.url.getD "")) ||
            pyIn "x.com" (u.expanded_url.getD (u.url.getD "")) then acc
         else acc ++ [u.expanded_url.getD (u.url.getD "")]) := rfl

theorem urlLoop_eq_specUrls (entries : List RawUrl) (acc : List String) :
    urlLoop entries acc = acc ++ specUrls entries := by
  induction entries generalizing acc with
  | nil => simp [urlLoop, specUrls]
  | cons u rest ih =>
    rw [urlLoop_cons]
    cases hdrop : pyIn "twitter.com" (u.expanded_url.getD (u.url.getD "")) ||
        pyIn "x.com" (u.expanded_url.getD (u.url.getD "")) with
    | false =>
      rw [if_neg Bool.false_ne_true, ih]
      have hkeep : (!(pyIn "twitter.com" (u.expanded_url.getD (u.url.getD ""))) &&
          !(pyIn "x.com" (u.expanded_url.getD (u.url.getD "")))) = true := by
        rcases Bool.or_eq_false_iff.mp hdrop with ⟨h1, h2⟩
        rw [h1, h2]
        rfl
      simp [specUrls, List.filter_cons, hkeep]
    | true =>
      rw [if_pos rfl, ih]
      have hkeep : (!(pyIn "twitter.com" (u.expanded_url.getD (u.url.getD ""))) &&
          !(pyIn "x.com" (u.expanded_url.getD (u.url.getD "")))) = false := by
        rcases Bool.or_eq_true_iff.mp hdrop with h1 | h1 <;> rw [h1] <;> simp
      simp [specUrls, List.filter_cons, hkeep]

/-- Claim C5: a normalized Post's urls list is, in entity order, the
expanded form of each URL entity (falling back to the short form when the
expanded form is absent), dropping exactly those whose resulting string
contains one of the platform's self-referencing domains ("twitter.com" or
"x.com"); absent entities or a missing "urls" key yield no URLs. -/
theorem claim_C5_urls (unesc : String → String) (us : List RawUser)
    (rts : List RawTweet) (t : RawTweet) :
    (t.entities = none → (parseOne unesc us rts t).urls = []) ∧
    (∀ ents, t.entities = some ents →
      (findLast (fun kv => kv.1 == "urls") ents = none →
        (parseOne unesc us rts t).urls = []) ∧
      (∀ kv, findLast (fun kv => kv.1 == "urls") ents = some kv →
        (parseOne unesc us rts t).urls = specUrls kv.2)) := by
  have hurls : (parseOne unesc us rts t).urls = extractUrls t := rfl
  refine ⟨?_, ?_⟩
  · intro h
    rw [hurls]
    simp [extractUrls, h]
  · intro ents hents
    constructor
    · intro hnone
      rw [hurls]
      simp [extractUrls, hents, hnone]
    · intro kv hkv
      rw [hurls]
      simp only [extractUrls, hents, hkv]
      rw [urlLoop_eq_specUrls]
      simp

theorem claim_C5_urls_witness :
    (parseOne id [] []
        { bareRaw 5 "hello" with entities := some [("urls",
          [{ expanded_url := some "https://twitter.com/u/status/1",
             url := some "https://t.co/a" },
           { expanded_url := some "https://example.com/a",
             url := some "https://t.co/b" },
           { expanded_url := none, url := some "https://t.co/c" },
           { expanded_url := some "https://x.com/u/status/2",
             url := some "https://t.co/d" }])] }).urls =
      specUrls
        [{ expanded_url := some "https://twitter.com/u/status/1",
           url := some "https://t.co/a" },
         { expanded_url := some "https://example.com/a",
           url := some "https://t.co/b" },
         { expanded_url := none, url := some "https://t.co/c" },
         { expanded_url := some "https://x.com/u/status/2",
           url := some "https://t.co/d" }] ∧
    specUrls
        [{ expanded_url := some "https://twitter.com/u/status/1",
           url := some "https://t.co/a" },
         { expanded_url := some "https://example.com/a",
           url := some "https://t.co/b" },
         { expanded_url := none, url := some "https://t.co/c" },
         { expanded_url := some "https://x.com/u/status/2",
           url := some "https://t.co/d" }] =
      ["https://example.com/a", "https://t.co/c"] :=
  ⟨((claim_C5_urls id [] []
      { bareRaw 5 "hello" with entities := some [("urls",
        [{ expanded_url := some "https://twitter.com/u/status/1",
           url := some "https://t.co/a" },
         { expanded_url := some "https://example.com/a",
           url := some "https://t.co/b" },
         { expanded_url := none, url := some "https://t.co/c" },
         { expanded_url := some "https://x.com/u/status/2",
           url := some "https://t.co/d" }])] }).2
      [("urls",
        [{ expanded_url := some "https://twitter.com/u/status/1",
           url := some "https://t.co/a" },
         { expanded_url := some "https://example.com/a",
           url := some "https://t.co/b" },
         { expanded_url := none, url := some "https://t.co/c" },
         { expanded_url := some "https://x.com/u/status/2",
           url := some "https://t.co/d" }])] rfl).2
      ("urls",
        [{ expanded_url := some "https://twitter.com/u/status/1",
           url := some "https://t.co/a" },
         { expanded_url := some "https://example.com/a",
           url := some "https://t.co/b" },
         { expanded_url := none, url := some "https://t.co/c" },
         { expanded_url := some "https://x.com/u/status/2",
           url := some "https://t.co/d" }]) rfl, by decide⟩

/-- Claim C1: a primary raw post with a reference of type "retweeted" is
normalized with is_retweet = true and retweeted_by = the wrapper's
resolved author handle; when the first such reference is present in the
referenced-posts side table, id/text/counters/created_at come from the
original (the author re-resolved in the users table, keeping the
wrapper's resolution on a miss, metrics and timestamp falling back to the
wrapper's); when it is absent, the wrapper's own fields are kept — in
every case a Tweet is produced, never an error. -/
theorem claim_C1_retweet_resolution (unesc : String → String)
    (us : List RawUser) (rts : List RawTweet) (t : RawTweet)
    (refs : List RawRef) (h : t.referenced_tweets = some refs)
    (hrt : refs.any (fun r => r.type == "retweeted") = true) :
    (parseOne unesc us rts t).is_retweet = true ∧
    (parseOne unesc us rts t).retweeted_by = some (handleOf us t) ∧
    (∀ rtRef, refs.find? (fun r => r.type == "retweeted") = some rtRef →
      (refGet rts rtRef.id = none →
        (parseOne unesc us rts t).id = toString t.id ∧
        (parseOne unesc us rts t).text = fullText unesc t ∧
        (parseOne unesc us rts t).author_handle = handleOf us t ∧
        (parseOne unesc us rts t).author_name = nameOf us t ∧
        (parseOne unesc us rts t).likes =
          dictGetNat (pyOrDict t.public_metrics []) "like_count" 0 ∧
        (parseOne unesc us rts t).retweets =
          dictGetNat (pyOrDict t.public_metrics []) "retweet_count" 0 ∧
        (parseOne unesc us rts t).replies =
          dictGetNat (pyOrDict t.public_metrics []) "reply_count" 0 ∧
        (parseOne unesc us rts t).quotes =
          dictGetNat (pyOrDict t.public_metrics []) "quote_count" 0 ∧
        (parseOne unesc us rts t).created_at = t.created_at) ∧
      (∀ orig, refGet rts rtRef.id = some orig →
        (parseOne unesc us rts t).id = toString orig.id ∧
        (parseOne unesc us rts t).text = fullText unesc orig ∧
        (parseOne unesc us rts t).created_at =
          pyOrOpt orig.created_at t.created_at ∧
        (parseOne unesc us rts t).likes =
          dictGetNat (pyOrDict orig.public_metrics
            (pyOrDict t.public_metrics [])) "like_count" 0 ∧
        (parseOne unesc us rts t).retweets =
          dictGetNat (pyOrDict orig.public_metrics
            (pyOrDict t.public_metrics [])) "retweet_count" 0 ∧
        (parseOne unesc us rts t).replies =
          dictGetNat (pyOrDict orig.public_metrics
            (pyOrDict t.public_metrics [])) "reply_count" 0 ∧
        (parseOne unesc us rts t).quotes =
          dictGetNat (pyOrDict orig.public_metrics
            (pyOrDict t.public_metrics [])) "quote_count" 0 ∧
        (∀ oa, usersGet us orig.author_id = some oa →
          (parseOne unesc us rts t).author_handle = oa.username ∧
          (parseOne unesc us rts t).author_name = oa.name) ∧
        (usersGet us orig.author_id = none →
          (parseOne unesc us rts t).author_handle = handleOf us t ∧
          (parseOne unesc us rts t).author_name = nameOf us t))) := by
  refine ⟨?_, ?_, ?_⟩
  · show (t.referenced_tweets.getD []).any (fun r => r.type == "retweeted") = true
    rw [h, Option.getD_some]
    exact hrt
  · show (if (t.referenced_tweets.getD []).any (fun r => r.type == "retweeted")
        then some (handleOf us t) else none) = some (handleOf us t)
    rw [h, Option.getD_some, hrt, if_pos rfl]
  · intro rtRef hfind
    constructor
    · intro hmiss
      have hres : resolveRT unesc us rts t =
          { text := fullText unesc t, handle := handleOf us t,
            name := nameOf us t, metrics := pyOrDict t.public_metrics [],
            idStr := toString t.id, created := t.created_at } := by
        rw [resolveRT]
        simp only [h, Option.getD_some, hrt, if_true, hfind, hmiss]
      exact ⟨congrArg Resolved.idStr hres, congrArg Resolved.text hres,
        congrArg Resolved.handle hres, congrArg Resolved.name hres,
        congrArg (fun r : Resolved => dictGetNat r.metrics "like_count" 0) hres,
        congrArg (fun r : Resolved => dictGetNat r.metrics "retweet_count" 0) hres,
        congrArg (fun r : Resolved => dictGetNat r.metrics "reply_count" 0) hres,
        congrArg (fun r : Resolved => dictGetNat r.metrics "quote_count" 0) hres,
        congrArg Resolved.created hres⟩
    · intro orig horig
      have hres : resolveRT unesc us rts t =
          { text := fullText unesc orig,
            handle := match usersGet us orig.author_id with
                      | some oa => oa.username
                      | none => handleOf us t,
            name := match usersGet us orig.author_id with
                    | some oa => oa.name
                    | none => nameOf us t,
            metrics := pyOrDict orig.public_metrics
              (pyOrDict t.public_metrics []),
            idStr := toString orig.id,
            created := pyOrOpt orig.created_at t.created_at } := by
        rw [resolveRT]
        simp only [h, Option.getD_some, hrt, if_true, hfind, horig]
      refine ⟨congrArg Resolved.idStr hres, congrArg Resolved.text hres,
        congrArg Resolved.created hres,
        congrArg (fun r : Resolved => dictGetNat r.metrics "like_count" 0) hres,
        congrArg (fun r : Resolved => dictGetNat r.metrics "retweet_count" 0) hres,
        congrArg (fun r : Resolved => dictGetNat r.metrics "reply_count" 0) hres,
        congrArg (fun r : Resolved => dictGetNat r.metrics "quote_count" 0) hres,
        ?_, ?_⟩
      · intro oa hoa
        have hh := congrArg Resolved.handle hres
        have hn := congrArg Resolved.name hres
        rw [hoa] at hh hn
        exact ⟨hh, hn⟩
      · intro hnone
        have hh := congrArg Resolved.handle hres
        have hn := congrArg Resolved.name hres
        rw [hnone] at hh hn
        exact ⟨hh, hn⟩

theorem claim_C1_retweet_resolution_witness :
    (parseOne id
        [{ id := 1, username := "rter", name := "ReTweeter" },
         { id := 2, username := "orig", name := "Original" }]
        [{ bareRaw 20 "the original" with
           author_id := some 2,
           public_metrics := some [("like_count", 5)],
           created_at := some 111 }]
        { bareRaw 10 "RT @orig: the original" with
          author_id := some 1,
          referenced_tweets := some [{ type := "retweeted", id := 20 }],
          created_at := some 99 }).is_retweet = true ∧
    (parseOne id
        [{ id := 1, username := "rter", name := "ReTweeter" },
         { id := 2, username := "orig", name := "Original" }]
        [{ bareRaw 20 "the original" with
           author_id := some 2,
           public_metrics := some [("like_count", 5)],
           created_at := some 111 }]
        { bareRaw 10 "RT @orig: the original" with
          author_id := some 1,
          referenced_tweets := some [{ type := "retweeted", id := 20 }],
          created_at := some 99 }).retweeted_by = some "rter" ∧
    (parseOne id
        [{ id := 1, username := "rter", name := "ReTweeter" },
         { id := 2, username := "orig", name := "Original" }]
        [{ bareRaw 20 "the original" with
           author_id := some 2,
           public_metrics := some [("like_count", 5)],
           created_at := some 111 }]
        { bareRaw 10 "RT @orig: the original" with
          author_id := some 1,
          referenced_tweets := some [{ type := "retweeted", id := 20 }],
          created_at := some 99 }).id = "20" ∧
    (parseOne id
        [{ id := 1, username := "rter", name := "ReTweeter" },
         { id := 2, username := "orig", name := "Original" }]
        [{ bareRaw 20 "the original" with
           author_id := some 2,
           public_metrics := some [("like_count", 5)],
           created_at := some 111 }]
        { bareRaw 10 "RT @orig: the original" with
          author_id := some 1,
          referenced_tweets := some [{ type := "retweeted", id := 20 }],
          created_at := some 99 }).text = "the original" ∧
    (parseOne id
        [{ id := 1, username := "rter", name := "ReTweeter" },
         { id := 2, username := "orig", name := "Original" }]
        [{ bareRaw 20 "the original" with
           author_id := some 2,
           public_metrics := some [("like_count", 5)],
           created_at := some 111 }]
        { bareRaw 10 "RT @orig: the original" with
          author_id := some 1,
          referenced_tweets := some [{ type := "retweeted", id := 20 }],
          created_at := some 99 }).author_handle = "orig" ∧
    (parseOne id
        [{ id := 1, username := "rter", name := "ReTweeter" },
         { id := 2, username := "orig", name := "Original" }]
        [{ bareRaw 20 "the original" with
           author_id := some 2,
           public_metrics := some [("like_count", 5)],
           created_at := some 111 }]
        { bareRaw 10 "RT @orig: the original" with
          author_id := some 1,
          referenced_tweets := some [{ type := "retweeted", id := 20 }],
          created_at := some 99 }).author_name = "Original" ∧
    (parseOne id
        [{ id := 1, username := "rter", name := "ReTweeter" },
         { id := 2, username := "orig", name := "Original" }]
        [{ bareRaw 20 "the original" with
           author_id := some 2,
           public_metrics := some [("like_count", 5)],
           created_at := some 111 }]
        { bareRaw 10 "RT @orig: the original" with
          author_id := some 1,
          referenced_tweets := some [{ type := "retweeted", id := 20 }],
          created_at := some 99 }).likes = 5 ∧
    (parseOne id
        [{ id := 1, username := "rter", name := "ReTweeter" },
         { id := 2, username := "orig", name := "Original" }]
        [{ bareRaw 20 "the original" with
           author_id := some 2,
           public_metrics := some [("like_count", 5)],
           created_at := some 111 }]
        { bareRaw 10 "RT @orig: the original" with
          author_id := some 1,
          referenced_tweets := some [{ type := "retweeted", id := 20 }],
          created_at := some 99 }).created_at = some 111 := by
  have h := claim_C1_retweet_resolution id
    [{ id := 1, username := "rter", name := "ReTweeter" },
     { id := 2, username := "orig", name := "Original" }]
    [{ bareRaw 20 "the original" with
       author_id := some 2,
       public_metrics := some [("like_count", 5)],
       created_at := some 111 }]
    { bareRaw 10 "RT @orig: the original" with
      author_id := some 1,
      referenced_tweets := some [{ type := "retweeted", id := 20 }],
      created_at := some 99 }
    [{ type := "retweeted", id := 20 }] rfl (by decide)
  have hf := (h.2.2 { type := "retweeted", id := 20 } rfl).2
    { bareRaw 20 "the original" with
      author_id := some 2,
      public_metrics := some [("like_count", 5)],
      created_at := some 111 } rfl
  have hoa := hf.2.2.2.2.2.2.2.1
    { id := 2, username := "orig", name := "Original" } rfl
  exact ⟨h.1, h.2.1, hf.1, hf.2.1, hoa.1, hoa.2, hf.2.2.2.1, hf.2.2.1⟩

/-- Claim C4: when a primary raw post carries a "quoted" reference whose
first occurrence resolves in the side table, the normalized Post carries
a nested quoted_tweet built from the referenced post's own text, like /
retweet / reply counts and timestamp (author defaulting to
"unknown"/"Unknown" when not in the users table); the nested Post is
never itself expanded: its quoted_tweet is None and no retweet/quote
resolution is performed on it (all its flags are false, its quote
counter defaults to 0). -/
theorem claim_C4_quoted (unesc : String → String) (us : List RawUser)
    (rts : List RawTweet) (t : RawTweet) (refs : List RawRef)
    (qtRef : RawRef) (qt : RawTweet)
    (h : t.referenced_tweets = some refs)
    (hfind : refs.find? (fun r => r.type == "quoted") = some qtRef)
    (hqt : refGet rts qtRef.id = some qt) :
    (parseOne unesc us rts t).is_quote = true ∧
    (parseOne unesc us rts t).quoted_tweet =
      some (Tweet.mk (toString qt.id) (fullText unesc qt)
        (match usersGet us qt.author_id with
         | some a => a.username
         | none => "unknown")
        (match usersGet us qt.author_id with
         | some a => a.name
         | none => "Unknown")
        qt.created_at
        (dictGetNat (pyOrDict qt.public_metrics []) "like_count" 0)
        (dictGetNat (pyOrDict qt.public_metrics []) "retweet_count" 0)
        (dictGetNat (pyOrDict qt.public_metrics []) "reply_count" 0)
        0 false false false none none none []) ∧
    (∀ nested, (parseOne unesc us rts t).quoted_tweet = some nested →
      nested.quoted_tweet = none ∧ nested.is_retweet = false ∧
      nested.is_reply = false ∧ nested.is_quote = false ∧
      nested.retweeted_by = none ∧ nested.quotes = 0 ∧
      nested.conversation_id = none ∧ nested.urls = []) := by
  have hq : refs.any (fun r => r.type == "quoted") = true := by
    have hmem := List.mem_of_find?_eq_some hfind
    have hps := List.find?_some hfind
    rw [List.any_eq_true]
    exact ⟨qtRef, hmem, hps⟩
  have h1 : (parseOne unesc us rts t).is_quote = true := by
    show (t.referenced_tweets.getD []).any (fun r => r.type == "quoted") = true
    rw [h, Option.getD_some]
    exact hq
  have h2 : (parseOne unesc us rts t).quoted_tweet =
      some (Tweet.mk (toString qt.id) (fullText unesc qt)
        (match usersGet us qt.author_id with
         | some a => a.username
         | none => "unknown")
        (match usersGet us qt.author_id with
         | some a => a.name
         | none => "Unknown")
        qt.created_at
        (dictGetNat (pyOrDict qt.public_metrics []) "like_count" 0)
        (dictGetNat (pyOrDict qt.public_metrics []) "retweet_count" 0)
        (dictGetNat (pyOrDict qt.public_metrics []) "reply_count" 0)
        0 false false false none none none []) := by
    show (if (t.referenced_tweets.getD []).any (fun r => r.type == "quoted")
        then buildQuoted unesc us rts (t.referenced_tweets.getD [])
        else none) = _
    rw [h, Option.getD_some, hq, if_pos rfl]
    simp only [buildQuoted, hfind, hqt]
  refine ⟨h1, h2, ?_⟩
  intro nested hnested
  rw [h2] at hnested
  have : nested = Tweet.mk (toString qt.id) (fullText unesc qt)
      (match usersGet us qt.author_id with
       | some a => a.username
       | none => "unknown")
      (match usersGet us qt.author_id with
       | some a => a.name
       | none => "Unknown")
      qt.created_at
      (dictGetNat (pyOrDict qt.public_metrics []) "like_count" 0)
      (dictGetNat (pyOrDict qt.public_metrics []) "retweet_count" 0)
      (dictGetNat (pyOrDict qt.public_metrics []) "reply_count" 0)
      0 false false false none none none [] :=
    (Option.some_inj.mp hnested).symm
  rw [this]
  exact ⟨rfl, rfl, rfl, rfl, rfl, rfl, rfl, rfl⟩

theorem claim_C4_quoted_witness :
    (parseOne id
        [{ id := 3, username := "qauthor", name := "Quoted Author" }]
        [{ bareRaw 30 "the quoted post" with
           author_id := some 3,
           public_metrics := some [("like_count", 7), ("quote_count", 4)],
           created_at := some 222 }]
        { bareRaw 11 "interesting take" with
          referenced_tweets := some [{ type := "quoted", id := 30 }] }).is_quote =
      true ∧
    (parseOne id
        [{ id := 3, username := "qauthor", name := "Quoted Author" }]
        [{ bareRaw 30 "the quoted post" with
           author_id := some 3,
           public_metrics := some [("like_count", 7), ("quote_count", 4)],
           created_at := some 222 }]
        { bareRaw 11 "interesting take" with
          referenced_tweets := some [{ type := "quoted", id := 30 }] }).quoted_tweet =
      some (Tweet.mk "30" "the quoted post" "qauthor" "Quoted Author"
        (some 222) 7 0 0 0 false false false none none none []) := by
  have h := claim_C4_quoted id
    [{ id := 3, username := "qauthor", name := "Quoted Author" }]
    [{ bareRaw 30 "the quoted post" with
       author_id := some 3,
       public_metrics := some [("like_count", 7), ("quote_count", 4)],
       created_at := some 222 }]
    { bareRaw 11 "interesting take" with
      referenced_tweets := some [{ type := "quoted", id := 30 }] }
    [{ type := "quoted", id := 30 }] { type := "quoted", id := 30 }
    { bareRaw 30 "the quoted post" with
      author_id := some 3,
      public_metrics := some [("like_count", 7), ("quote_count", 4)],
      created_at := some 222 } rfl rfl rfl
  exact ⟨h.1, h.2.1⟩

/-- Claim C2: normalization is total on its input domain — every response
yields a result, and each absent optional field degrades independently
and silently: missing author entry → placeholder handle "unknown" / name
"Unknown"; missing public metrics → all counters 0; missing reference
list → all flags false, no retweeted_by, no quoted_tweet; missing
entities → empty urls; missing timestamp → none; missing note text →
the plain text field; a post with every optional field absent maps to
exactly the placeholder Post. -/
theorem claim_C2_degradation (unesc : String → String) (us : List RawUser)
    (rts : List RawTweet) :
    (∀ resp : RawResponse, ∃ out, parse_tweets unesc resp = out) ∧
    (∀ i s, parseOne unesc us rts (bareRaw i s) =
      Tweet.mk (toString i) (unesc s) "unknown" "Unknown" none 0 0 0 0
        false false false none none none []) ∧
    (∀ t : RawTweet, usersGet us t.author_id = none →
      t.referenced_tweets = none →
      (parseOne unesc us rts t).author_handle = "unknown" ∧
      (parseOne unesc us rts t).author_name = "Unknown") ∧
    (∀ t : RawTweet, t.public_metrics = none → t.referenced_tweets = none →
      (parseOne unesc us rts t).likes = 0 ∧
      (parseOne unesc us rts t).retweets = 0 ∧
      (parseOne unesc us rts t).replies = 0 ∧
      (parseOne unesc us rts t).quotes = 0) ∧
    (∀ t : RawTweet, t.referenced_tweets = none →
      (parseOne unesc us rts t).is_retweet = false ∧
      (parseOne unesc us rts t).is_reply = false ∧
      (parseOne unesc us rts t).is_quote = false ∧
      (parseOne unesc us rts t).retweeted_by = none ∧
      (parseOne unesc us rts t).quoted_tweet = none) ∧
    (∀ t : RawTweet, t.entities = none →
      (parseOne unesc us rts t).urls = []) ∧
    (∀ t : RawTweet, t.created_at = none → t.referenced_tweets = none →
      (parseOne unesc us rts t).created_at = none) ∧
    (∀ t : RawTweet, t.note_tweet = none → t.referenced_tweets = none →
      (parseOne unesc us rts t).text = unesc t.text) := by
  have hres : ∀ t : RawTweet, t.referenced_tweets = none →
      resolveRT unesc us rts t =
        { text := fullText unesc t, handle := handleOf us t,
          name := nameOf us t, metrics := pyOrDict t.public_metrics [],
          idStr := toString t.id, created := t.created_at } := by
    intro t href
    rw [resolveRT]
    simp only [href, Option.getD_none, List.any_nil, Bool.false_eq_true,
      if_false]
  refine ⟨fun resp => ⟨_, rfl⟩, fun i s => rfl, ?_, ?_, ?_, ?_, ?_, ?_⟩
  · intro t hu href
    have h1 := congrArg Resolved.handle (hres t href)
    have h2 := congrArg Resolved.name (hres t href)
    rw [handleOf, hu] at h1
    rw [nameOf, hu] at h2
    exact ⟨h1, h2⟩
  · intro t hm href
    have h1 := congrArg (fun r : Resolved => dictGetNat r.metrics "like_count" 0)
      (hres t href)
    have h2 := congrArg (fun r : Resolved => dictGetNat r.metrics "retweet_count" 0)
      (hres t href)
    have h3 := congrArg (fun r : Resolved => dictGetNat r.metrics "reply_count" 0)
      (hres t href)
    have h4 := congrArg (fun r : Resolved => dictGetNat r.metrics "quote_count" 0)
      (hres t href)
    rw [hm] at h1 h2 h3 h4
    exact ⟨h1, h2, h3, h4⟩
  · intro t href
    refine ⟨?_, ?_, ?_, ?_, ?_⟩
    · show (t.referenced_tweets.getD []).any (fun r => r.type == "retweeted") =
        false
      rw [href]
      rfl
    · show (t.referenced_tweets.getD []).any (fun r => r.type == "replied_to") =
        false
      rw [href]
      rfl
    · show (t.referenced_tweets.getD []).any (fun r => r.type == "quoted") =
        false
      rw [href]
      rfl
    · show (if (t.referenced_tweets.getD []).any
          (fun r => r.type == "retweeted") then some (handleOf us t)
          else none) = none
      rw [href]
      rfl
    · show (if (t.referenced_tweets.getD []).any
          (fun r => r.type == "quoted") then
            buildQuoted unesc us rts (t.referenced_tweets.getD [])
          else none) = none
      rw [href]
      rfl
  · intro t hent
    show extractUrls t = []
    simp [extractUrls, hent]
  · intro t hc href
    have h1 := congrArg Resolved.created (hres t href)
    rw [hc] at h1
    exact h1
  · intro t hn href
    have h1 := congrArg Resolved.text (hres t href)
    rw [fullText, hn] at h1
    exact h1

theorem claim_C2_degradation_witness :
    parseOne id [] [] (bareRaw 5 "hi &amp; bye") =
      Tweet.mk "5" "hi &amp; bye" "unknown" "Unknown" none 0 0 0 0
        false false false none none none [] ∧
    (parseOne id [] []
        { bareRaw 6 "x" with public_metrics := some [("like_count", 3)] }).likes = 3 ∧
    (parseOne id [] []
        { bareRaw 7 "y" with public_metrics := none }).likes = 0 :=
  ⟨(claim_C2_degradation id [] []).2.1 5 "hi &amp; bye",
   by decide,
   ((claim_C2_degradation id [] []).2.2.2.1
     { bareRaw 7 "y" with public_metrics := none } rfl rfl).1⟩

/-! ### Interactive browser claim -/

/-- Claim C10: a `b/c/o/t` command resolves its page-relative index as
the page's starting absolute offset (page * page_size) plus the index; a
non-numeric index argument produces the "Invalid tweet number." notice
and no action, an out-of-range absolute index produces the "not on this
page" notice and no action (the page is unchanged and the loop
continues), and an in-range index dispatches the corresponding action on
exactly the tweet at that absolute index. -/
theorem claim_C10_index_resolution (tweets : List Tweet)
    (pageSize page : Nat) (cmd promptReply : String)
    (c : Char) (rest : List Char)
    (hcs : cmd.toList = c :: rest)
    (hc : c = 'b' ∨ c = 'c' ∨ c = 'o' ∨ c = 't') :
    (parsePyInt (if (stripChars rest).isEmpty then promptReply.toList
        else stripChars rest) = none →
      browseStep tweets pageSize page cmd promptReply =
        (page, Effect.notice "Invalid tweet number.")) ∧
    (∀ idx : Int,
      parsePyInt (if (stripChars rest).isEmpty then promptReply.toList
          else stripChars rest) = some idx →
      ((((page * pageSize : Nat) : Int) + idx < 0 ∨
          (tweets.length : Int) ≤ ((page * pageSize : Nat) : Int) + idx) →
        browseStep tweets pageSize page cmd promptReply =
          (page, Effect.notice
            ("Tweet #" ++ toString idx ++ " not on this page."))) ∧
      (∀ tgt, tweets.get? (((page * pageSize : Nat) : Int) + idx).toNat = some tgt →
        0 ≤ ((page * pageSize : Nat) : Int) + idx →
        browseStep tweets pageSize page cmd promptReply =
          (page, if c = 'b' then Effect.bookmarkOf tgt
                 else if c = 'c' then Effect.copyOf tgt
                 else if c = 'o' then Effect.openOf tgt
                 else Effect.threadOf tgt))) := by
  rcases hc with rfl | rfl | rfl | rfl <;>
  · refine ⟨?_, ?_⟩
    · intro hnone
      simp only [browseStep, hcs, hnone]
      rfl
    · intro idx hidx
      constructor
      · intro hout
        simp only [browseStep, hcs, hidx]
        rw [dif_pos hout]
        rfl
      · intro tgt htgt hnonneg
        obtain ⟨hlt, hget⟩ := List.get?_eq_some.mp htgt
        have hin : ¬ (((page * pageSize : Nat) : Int) + idx < 0 ∨
            (tweets.length : Int) ≤ ((page * pageSize : Nat) : Int) + idx) := by
          push_neg
          refine ⟨by omega, ?_⟩
          omega
        simp only [browseStep, hcs, hidx]
        rw [dif_neg hin]
        rw [show tweets.get ⟨(((page * pageSize : Nat) : Int) + idx).toNat,
          by omega⟩ = tgt from hget]
        rfl

theorem claim_C10_index_resolution_witness :
    browseStep
        (List.replicate 12 (Tweet.mk "0" "x" "h" "n" none 0 0 0 0
          false false false none none none [])) 10 1 "bxx" "" =
      (1, Effect.notice "Invalid tweet number.") ∧
    browseStep
        (List.replicate 12 (Tweet.mk "0" "x" "h" "n" none 0 0 0 0
          false false false none none none [])) 10 1 "b5" "" =
      (1, Effect.notice
        ("Tweet #" ++ toString (5 : Int) ++ " not on this page.")) ∧
    browseStep
        (List.replicate 12 (Tweet.mk "0" "x" "h" "n" none 0 0 0 0
          false false false none none none [])) 10 1 "c1" "" =
      (1, Effect.copyOf (Tweet.mk "0" "x" "h" "n" none 0 0 0 0
        false false false none none none [])) := by
  refine ⟨?_, ?_, ?_⟩
  · exact (claim_C10_index_resolution
      (List.replicate 12 (Tweet.mk "0" "x" "h" "n" none 0 0 0 0
        false false false none none none [])) 10 1 "bxx" ""
      'b' ['x', 'x'] rfl (Or.inl rfl)).1 rfl
  · exact ((claim_C10_index_resolution
      (List.replicate 12 (Tweet.mk "0" "x" "h" "n" none 0 0 0 0
        false false false none none none [])) 10 1 "b5" ""
      'b' ['5'] rfl (Or.inl rfl)).2 5 rfl).1 (by decide)
  · exact ((claim_C10_index_resolution
      (List.replicate 12 (Tweet.mk "0" "x" "h" "n" none 0 0 0 0
        false false false none none none [])) 10 1 "c1" ""
      'c' ['1'] rfl (Or.inr (Or.inl rfl))).2 1 rfl).2
      (Tweet.mk "0" "x" "h" "n" none 0 0 0 0
        false false false none none none []) rfl (by decide)

/-! ### Count formatter lemmas -/

theorem rneQ_intCast (c : ℤ) : rneQ (c : ℚ) = c := by
  unfold rneQ
  rw [Int.floor_intCast]
  rw [if_pos (by norm_num)]

theorem rneQ_natCast (c : ℕ) : rneQ (c : ℚ) = c := by
  rw [show ((c : ℕ) : ℚ) = (((c : ℕ) : ℤ) : ℚ) from by push_cast; rfl]
  rw [rneQ_intCast]

theorem rneQ_nonneg (q : ℚ) (h : 0 ≤ q) : 0 ≤ rneQ q := by
  have h0 : 0 ≤ ⌊q⌋ := Int.le_floor.mpr (by exact_mod_cast h)
  unfold rneQ
  split_ifs <;> omega

theorem rneQ_nearest (q : ℚ) (e : ℤ) :
    |q - (rneQ q : ℚ)| ≤ |q - (e : ℚ)| := by
  have hf : (⌊q⌋ : ℚ) ≤ q := Int.floor_le q
  have hc : q < ⌊q⌋ + 1 := Int.lt_floor_add_one q
  have habsf : |q - (⌊q⌋ : ℚ)| = q - ⌊q⌋ := abs_of_nonneg (by linarith)
  have habsf1 : |q - ((⌊q⌋ : ℚ) + 1)| = (⌊q⌋ : ℚ) + 1 - q := by
    rw [abs_sub_comm]
    exact abs_of_nonneg (by linarith)
  have he : (e : ℚ) ≤ (⌊q⌋ : ℚ) ∨ (⌊q⌋ : ℚ) + 1 ≤ (e : ℚ) := by
    rcases le_or_lt e ⌊q⌋ with h | h
    · left
      exact_mod_cast h
    · right
      exact_mod_cast h
  have hee : (e : ℚ) ≤ (⌊q⌋ : ℚ) → |q - (e : ℚ)| = q - e :=
    fun hh => abs_of_nonneg (by linarith)
  have hee2 : (⌊q⌋ : ℚ) + 1 ≤ (e : ℚ) → |q - (e : ℚ)| = e - q := by
    intro hh
    rw [abs_sub_comm]
    exact abs_of_nonneg (by linarith)
  unfold rneQ
  split_ifs with h1 h2 h3
  · rcases he with he | he
    · rw [habsf, hee he]
      linarith
    · rw [habsf, hee2 he]
      linarith
  · rcases he with he | he
    · rw [show ((⌊q⌋ + 1 : ℤ) : ℚ) = (⌊q⌋ : ℚ) + 1 from by push_cast; ring,
        habsf1, hee he]
      linarith
    · rw [show ((⌊q⌋ + 1 : ℤ) : ℚ) = (⌊q⌋ : ℚ) + 1 from by push_cast; ring,
        habsf1, hee2 he]
      linarith
  · rcases he with he | he
    · rw [habsf, hee he]
      linarith
    · rw [habsf, hee2 he]
      linarith
  · rcases he with he | he
    · rw [show ((⌊q⌋ + 1 : ℤ) : ℚ) = (⌊q⌋ : ℚ) + 1 from by push_cast; ring,
        habsf1, hee he]
      linarith
    · rw [show ((⌊q⌋ + 1 : ℤ) : ℚ) = (⌊q⌋ : ℚ) + 1 from by push_cast; ring,
        habsf1, hee2 he]
      linarith

theorem floorQ_nat_div (a b : ℕ) : ⌊(a : ℚ) / b⌋ = ((a / b : ℕ) : ℤ) := by
  rw [show ((a : ℚ)) = (((a : ℤ)) : ℚ) from by push_cast; rfl]
  rw [Rat.floor_intCast_div_natCast]
  exact (Int.ofNat_div a b).symm

theorem rneDiv_eq_rneQ (a b : ℕ) (hb : 0 < b) :
    ((rneDiv a b : ℕ) : ℤ) = rneQ ((a : ℚ) / b) := by
  have hbq : (0 : ℚ) < b := by exact_mod_cast hb
  have hr : (a : ℚ) / b - ((a / b : ℕ) : ℚ) = ((a % b : ℕ) : ℚ) / b := by
    have hmod : ((b * (a / b) + a % b : ℕ) : ℚ) = (a : ℚ) := by
      exact_mod_cast congrArg (Nat.cast : ℕ → ℚ) (Nat.div_add_mod a b)
    push_cast at hmod
    field_simp
    linarith
  have hc1 : ((a : ℚ) / b - (⌊(a : ℚ) / b⌋ : ℚ) < 1/2) ↔ 2 * (a % b) < b := by
    rw [floorQ_nat_div]
    rw [show ((((a / b : ℕ) : ℤ)) : ℚ) = ((a / b : ℕ) : ℚ) from by push_cast; rfl]
    rw [hr, div_lt_iff hbq]
    constructor
    · intro h
      have h2 : (2 * (a % b) : ℕ) < (b : ℕ) := by
        have : ((2 * (a % b) : ℕ) : ℚ) < (b : ℚ) := by push_cast; linarith
        exact_mod_cast this
      exact h2
    · intro h
      have : ((2 * (a % b) : ℕ) : ℚ) < (b : ℚ) := by exact_mod_cast h
      push_cast at this
      linarith
  have hc2 : ((1 : ℚ)/2 < (a : ℚ) / b - (⌊(a : ℚ) / b⌋ : ℚ)) ↔ b < 2 * (a % b) := by
    rw [floorQ_nat_div]
    rw [show ((((a / b : ℕ) : ℤ)) : ℚ) = ((a / b : ℕ) : ℚ) from by push_cast; rfl]
    rw [hr, lt_div_iff hbq]
    constructor
    · intro h
      have h2 : (b : ℕ) < (2 * (a % b) : ℕ) := by
        have : (b : ℚ) < ((2 * (a % b) : ℕ) : ℚ) := by push_cast; linarith
        exact_mod_cast this
      exact h2
    · intro h
      have : (b : ℚ) < ((2 * (a % b) : ℕ) : ℚ) := by exact_mod_cast h
      push_cast at this
      linarith
  have hc3 : ((⌊(a : ℚ) / b⌋ % 2 == 0) = true) ↔ (((a / b) % 2 == 0) = true) := by
    rw [floorQ_nat_div, beq_iff_eq, beq_iff_eq]
    omega
  unfold rneQ rneDiv
  rw [if_congr hc1 rfl (if_congr hc2 rfl (if_congr hc3 rfl rfl))]
  rw [floorQ_nat_div]
  rw [apply_ite (Nat.cast : ℕ → ℤ), apply_ite (Nat.cast : ℕ → ℤ),
    apply_ite (Nat.cast : ℕ → ℤ)]
  push_cast
  rfl

theorem log2fuel_eq_log2 (fuel : ℕ) : ∀ n : ℕ, n ≤ fuel →
    log2fuel fuel n = Nat.log2 n := by
  induction fuel with
  | zero =>
    intro n h
    have hn : n = 0 := by omega
    subst hn
    rw [Nat.log2, if_neg (by omega)]
    rfl
  | succ fuel ih =>
    intro n h
    rw [log2fuel]
    by_cases h2 : n < 2
    · rw [if_pos h2, Nat.log2, if_neg (by omega)]
    · rw [if_neg h2, ih (n / 2) (by omega)]
      conv_rhs => rw [Nat.log2]
      rw [if_pos (by omega)]

theorem log2floor_eq_log2 (n : ℕ) : log2floor n = Nat.log2 n :=
  log2fuel_eq_log2 n n le_rfl

theorem f64tenths_eq (n d : ℕ) (hd : 0 < d) :
    ((f64tenths n d : ℕ) : ℤ) = rneQ (10 * fl64 ((n : ℚ) / d)) := by
  have hbq : (0 : ℚ) < d := by exact_mod_cast hd
  have hkk : Nat.log2 (⌊(n : ℚ) / d⌋).toNat = log2floor (n / d) := by
    rw [floorQ_nat_div, Int.toNat_natCast, log2floor_eq_log2]
  unfold f64tenths fl64
  rw [hkk]
  by_cases hk52 : log2floor (n / d) ≤ 52
  · rw [if_pos hk52, if_pos hk52]
    have hm : ((rneDiv (n * 2 ^ (52 - log2floor (n / d))) d : ℕ) : ℤ) =
        rneQ ((n : ℚ) / d * 2 ^ (52 - log2floor (n / d))) := by
      rw [rneDiv_eq_rneQ _ _ hd]
      congr 1
      push_cast
      ring
    have hm2 : ((rneQ ((n : ℚ) / d * 2 ^ (52 - log2floor (n / d))) : ℤ) : ℚ) =
        ((rneDiv (n * 2 ^ (52 - log2floor (n / d))) d : ℕ) : ℚ) := by
      rw [← hm]
      push_cast
      ring
    rw [hm2]
    rw [rneDiv_eq_rneQ _ _ (by positivity)]
    congr 1
    push_cast
    ring
  · rw [if_neg hk52, if_neg hk52]
    have hm : ((rneDiv n (d * 2 ^ (log2floor (n / d) - 52)) : ℕ) : ℤ) =
        rneQ ((n : ℚ) / d / 2 ^ (log2floor (n / d) - 52)) := by
      rw [rneDiv_eq_rneQ _ _ (by positivity)]
      congr 1
      push_cast
      rw [div_div]
    have hm2 : ((rneQ ((n : ℚ) / d / 2 ^ (log2floor (n / d) - 52)) : ℤ) : ℚ) =
        ((rneDiv n (d * 2 ^ (log2floor (n / d) - 52)) : ℕ) : ℚ) := by
      rw [← hm]
      push_cast
      ring
    rw [hm2]
    rw [show (10 : ℚ) * (((rneDiv n (d * 2 ^ (log2floor (n / d) - 52)) : ℕ) : ℚ) *
        2 ^ (log2floor (n / d) - 52)) =
      ((10 * rneDiv n (d * 2 ^ (log2floor (n / d) - 52)) *
        2 ^ (log2floor (n / d) - 52) : ℕ) : ℚ) from by push_cast; ring]
    rw [rneQ_natCast]

/-- Claim C6 counterexample: at n = 1050 the code renders "1.1K" — the
binary64 value of 1050/1000 lies strictly above the exact tie 1.05, so
the one-decimal rounding goes up — while rounding the exact rational
1050/1000 half-to-even at one decimal (the claim's stated rule) yields
"1.0K". -/
theorem claim_C6_count_format_counterexample :
    format_count 1050 = "1.1K" ∧ specCountK 1050 = "1.0K" ∧
    format_count 1050 ≠ specCountK 1050 := by
  have h1 : format_count 1050 = "1.1K" := by decide
  have harg : 10 * ((1050 : ℕ) : ℚ) / 1000 = 21 / 2 := by norm_num
  have hfl : ⌊(21 / 2 : ℚ)⌋ = 10 := by
    rw [Int.floor_eq_iff]
    constructor <;> norm_num
  have h2 : specCountK 1050 = "1.0K" := by
    unfold specCountK
    rw [harg]
    unfold rneQ
    rw [hfl]
    rw [if_neg (by norm_num), if_neg (by norm_num), if_pos (by decide)]
    decide
  exact ⟨h1, h2, by rw [h1, h2]; decide⟩

/-- Claim C6 (amended): the count formatter returns str(n) for n < 1000;
for 1000 ≤ n < 1,000,000 it renders one decimal followed by "K", and for
n ≥ 1,000,000 one decimal followed by "M", where the rendered tenths
digit is a nearest one-decimal value of the IEEE-754 binary64
(round-to-nearest, ties-to-even) quotient n/1000 resp. n/1,000,000 —
not of the exact rational quotient: at exact one-decimal ties of the
rational quotient the binary64 representation decides the direction
(e.g. 1050 → "1.1K"), and a binary64 value itself is never an exact tie,
so "half-to-even at one decimal" degenerates to "nearest". -/
theorem claim_C6_count_format (n : ℕ) :
    (n < 1000 → format_count n = toString n) ∧
    (1000 ≤ n → n < 1000000 →
      ∃ d : ℕ, format_count n =
          toString (d / 10) ++ "." ++ toString (d % 10) ++ "K" ∧
        ∀ e : ℤ, |fl64 ((n : ℚ) / 1000) - (d : ℚ) / 10| ≤
          |fl64 ((n : ℚ) / 1000) - (e : ℚ) / 10|) ∧
    (1000000 ≤ n →
      ∃ d : ℕ, format_count n =
          toString (d / 10) ++ "." ++ toString (d % 10) ++ "M" ∧
        ∀ e : ℤ, |fl64 ((n : ℚ) / 1000000) - (d : ℚ) / 10| ≤
          |fl64 ((n : ℚ) / 1000000) - (e : ℚ) / 10|) := by
  have key : ∀ dvs : ℕ, 0 < dvs → ∀ e : ℤ,
      |fl64 ((n : ℚ) / dvs) - ((f64tenths n dvs : ℕ) : ℚ) / 10| ≤
        |fl64 ((n : ℚ) / dvs) - (e : ℚ) / 10| := by
    intro dvs hdvs e
    have h10 := rneQ_nearest (10 * fl64 ((n : ℚ) / dvs)) e
    have hcast : ((f64tenths n dvs : ℕ) : ℚ) =
        ((rneQ (10 * fl64 ((n : ℚ) / dvs)) : ℤ) : ℚ) := by
      exact_mod_cast congrArg (fun z : ℤ => (z : ℚ)) (f64tenths_eq n dvs hdvs)
    rw [hcast]
    have e1 : fl64 ((n : ℚ) / dvs) -
        ((rneQ (10 * fl64 ((n : ℚ) / dvs)) : ℤ) : ℚ) / 10 =
        (10 * fl64 ((n : ℚ) / dvs) -
          (rneQ (10 * fl64 ((n : ℚ) / dvs)) : ℚ)) / 10 := by
      ring
    have e2 : fl64 ((n : ℚ) / dvs) - (e : ℚ) / 10 =
        (10 * fl64 ((n : ℚ) / dvs) - (e : ℚ)) / 10 := by
      ring
    rw [e1, e2, abs_div, abs_div]
    rw [show |(10 : ℚ)| = 10 from by norm_num]
    exact (div_le_div_right (by norm_num)).mpr h10
  refine ⟨?_, ?_, ?_⟩
  · intro h
    unfold format_count
    rw [if_neg (by omega), if_neg (by omega)]
  · intro h1 h2
    refine ⟨f64tenths n 1000, ?_, key 1000 (by norm_num)⟩
    unfold format_count
    rw [if_neg (by omega), if_pos (by omega)]
  · intro h1
    refine ⟨f64tenths n 1000000, ?_, key 1000000 (by norm_num)⟩
    unfold format_count
    rw [if_pos (by omega)]

theorem claim_C6_count_format_witness :
    (∃ d : ℕ, format_count 1200 =
        toString (d / 10) ++ "." ++ toString (d % 10) ++ "K" ∧
      ∀ e : ℤ, |fl64 (((1200 : ℕ) : ℚ) / 1000) - (d : ℚ) / 10| ≤
        |fl64 (((1200 : ℕ) : ℚ) / 1000) - (e : ℚ) / 10|) ∧
    format_count 999 = "999" ∧ format_count 1000 = "1.0K" ∧
    format_count 1200 = "1.2K" ∧ format_count 999999 = "1000.0K" ∧
    format_count 1000000 = "1.0M" ∧ format_count 234900000 = "234.9M" :=
  ⟨(claim_C6_count_format 1200).2.1 (by norm_num) (by norm_num),
   by decide, by decide, by decide, by decide, by decide, by decide⟩
